import Mathlib

/-!
Verification development for the maven-script-interpreter layout-visualization
scripts: a grid-layout data model, the column-major navigation-order resolver,
the box-drawing diagram renderer, and the fixed example screens from
`visualize_four_columns.py` and `visualize_two_columns.py`.

The two Python files under `scripts/` consist of hard-coded `print` calls; the
string-building expressions of those calls are embedded here verbatim
(`repChar` is Python's `"c" * n`, `ljust` is `str.ljust`).  The components the
design document describes (LayoutModel, NavigationOrderResolver,
DiagramRenderer, ReportAssembler) have no implementation in the repository, so
they are modelled from the spec and are marked as such.
-/

namespace LayoutViz

/-- Python string repetition `c * n`: a string of `n` copies of `c`. -/
def repChar (c : Char) (n : Nat) : String :=
  String.mk (List.replicate n c)

/-- Python `str.ljust(w)`: pad on the right with spaces up to width `w`;
strings already at least `w` long are returned unchanged. -/
def ljust (s : String) (w : Nat) : String :=
  s ++ repChar ' ' (w - s.length)

/-- Modelled from the spec: the fixed enumeration of control kinds of §3
(buttons are kept in a separate ordered action row). -/
inductive ControlKind where
  | textField
  | spinner
  | comboBox
  | choiceBox
  deriving DecidableEq, Repr

/-- Modelled from the spec: a grid item of §3 — display label, control kind,
optional value-range/prompt metadata, and zero-based grid position. -/
structure Item where
  label : String
  kind : ControlKind
  info : String
  row : Nat
  col : Nat
  deriving DecidableEq, Repr

/-- Modelled from the spec: an action button of §3 — label only, no grid
position; buttons form a separate ordered action row. -/
structure Button where
  label : String
  deriving DecidableEq, Repr

/-- Modelled from the spec: the grid geometry of §3, descriptive metadata
carried through to the report. -/
structure Layout where
  columnCount : Nat
  rowCount : Nat
  hGap : Nat
  vGap : Nat
  padding : Nat
  windowWidth : Nat
  windowHeight : Nat
  deriving DecidableEq, Repr

/-- Modelled from the spec: the LayoutModel of §2/§4.1 — grid geometry plus
the declared grid items and action buttons. -/
structure LayoutModel where
  layout : Layout
  items : List Item
  buttons : List Button
  deriving DecidableEq, Repr

/-- Modelled from the spec: the `InvalidLayoutError` taxonomy of §7 —
out-of-bounds or colliding grid position, carrying the offending item(s). -/
inductive InvalidLayoutError where
  | outOfBounds (offending : Item)
  | collision (first second : Item)
  deriving DecidableEq, Repr

/-- Whether an item's (row, column) lies inside the declared grid bounds. -/
def inBounds (ly : Layout) (it : Item) : Bool :=
  it.row < ly.rowCount && it.col < ly.columnCount

/-- Whether two grid items occupy the same (row, column) cell. -/
def collidesWith (a b : Item) : Bool :=
  a.row == b.row && a.col == b.col

/-- First pair of declared items sharing a (row, column) cell, if any. -/
def findCollision : List Item → Option (Item × Item)
  | [] => none
  | it :: rest =>
    match rest.find? (collidesWith it) with
    | some other => some (it, other)
    | none => findCollision rest

/-- Modelled from the spec: LayoutModel construction (§4.1) — fails with
`InvalidLayoutError` on an out-of-bounds item or on two items colliding on
the same (row, column). -/
def mkLayoutModel (ly : Layout) (items : List Item) (btns : List Button) :
    Except InvalidLayoutError LayoutModel :=
  match items.find? (fun it => !inBounds ly it) with
  | some it => .error (.outOfBounds it)
  | none =>
    match findCollision items with
    | some (a, b) => .error (.collision a b)
    | none => .ok ⟨ly, items, btns⟩

/-- The construction checks of `mkLayoutModel` as a boolean predicate. -/
def validB (ly : Layout) (items : List Item) : Bool :=
  items.all (inBounds ly) && (findCollision items).isNone

/-- A valid LayoutModel: every item in bounds and no two items colliding
(the invariants of §3, i.e. exactly what `mkLayoutModel` checks). -/
def Valid (m : LayoutModel) : Prop :=
  validB m.layout m.items = true

instance (m : LayoutModel) : Decidable (Valid m) :=
  inferInstanceAs (Decidable (validB m.layout m.items = true))

/-- Modelled from the spec: the column-major comparison of §4.2 — columns
ascending, rows ascending within a column. -/
def colRowLe (a b : Item) : Prop :=
  a.col < b.col ∨ (a.col = b.col ∧ a.row ≤ b.row)

instance : DecidableRel colRowLe := fun a b =>
  inferInstanceAs (Decidable (a.col < b.col ∨ (a.col = b.col ∧ a.row ≤ b.row)))

instance : IsTotal Item colRowLe :=
  ⟨fun a b => by unfold colRowLe; omega⟩

instance : IsTrans Item colRowLe :=
  ⟨fun a b c => by unfold colRowLe; omega⟩

/-- Strict column-major precedence: strictly earlier column, or same column
and strictly earlier row. -/
def colRowLt (a b : Item) : Prop :=
  a.col < b.col ∨ (a.col = b.col ∧ a.row < b.row)

/-- Modelled from the spec: §4.2 — group grid items by column index ascending
and order by row index ascending within each column, i.e. sort by the
column-major comparison. -/
def sortItems (items : List Item) : List Item :=
  items.insertionSort colRowLe

/-- A focusable control in the resolved navigation order: a grid item or an
action button. -/
inductive Control where
  | field (it : Item)
  | button (b : Button)
  deriving DecidableEq, Repr

/-- Modelled from the spec: §4.2 — the concatenated traversal order: sorted
grid items first, then the buttons in their declared insertion order. -/
def orderedControls (m : LayoutModel) : List Control :=
  (sortItems m.items).map Control.field ++ m.buttons.map Control.button

/-- Assign consecutive sequence numbers starting at `n` to a list of
controls. -/
def withSeq : Nat → List Control → List (Nat × Control)
  | _, [] => []
  | n, c :: cs => (n, c) :: withSeq (n + 1) cs

/-- Modelled from the spec: the NavigationOrderResolver of §4.2 — sequence
numbers 1..N assigned in column-major order, buttons last. -/
def resolve (m : LayoutModel) : List (Nat × Control) :=
  withSeq 1 (orderedControls m)

/-- A small valid model used to witness the general resolver theorems:
two text fields side by side and one button. -/
def itemA : Item := ⟨"A", .textField, "", 0, 0⟩

/-- Second demo item, in the column to the right of `itemA`. -/
def itemB : Item := ⟨"B", .textField, "", 0, 1⟩

/-- Demo action button. -/
def demoButton : Button := ⟨"Go"⟩

/-- Demo model: 2 columns, 1 row, two items and one button. -/
def demoModel : LayoutModel :=
  ⟨⟨2, 1, 0, 0, 0, 0, 0⟩, [itemA, itemB], [demoButton]⟩

/-- Two items declared on the very same cell (row 0, column 0). -/
def clashItems : List Item :=
  [⟨"A", .textField, "", 0, 0⟩, ⟨"B", .textField, "", 0, 0⟩]

/-- Numeric value of a list of decimal digit characters. -/
def natOfDigits (l : List Char) : Nat :=
  l.foldl (fun a c => a * 10 + (c.toNat - 48)) 0

/-- The number formed by the leading decimal digits of `s`, if `s` starts
with a digit. -/
def leadingNat (s : String) : Option Nat :=
  let ds := s.toList.takeWhile Char.isDigit
  if ds.isEmpty then none else some (natOfDigits ds)

/-- Maximal runs of decimal digits occurring in a character list, each read
as a number, with the run currently being read carried in `acc`. -/
def digitRunsAux : List Char → Option Nat → List Nat
  | [], none => []
  | [], some n => [n]
  | c :: cs, acc =>
    if c.isDigit then
      digitRunsAux cs (some ((acc.getD 0) * 10 + (c.toNat - 48)))
    else
      match acc with
      | some n => n :: digitRunsAux cs none
      | none => digitRunsAux cs none

/-- All maximal decimal-digit runs in `s`, as numbers, left to right. -/
def digitRuns (s : String) : List Nat :=
  digitRunsAux s.toList none

/-- Items of the four-column screen, as declared in the `LAYOUT CALCULATIONS`
section of `visualize_four_columns.py` (labels, `layoutPos="row,column"`),
listed here in the row-major order the diagram bands print them; kinds and
value ranges from the `CONTROL TYPES` section. -/
def fourColItems : List Item := [
  ⟨"First Name", .textField, "", 0, 0⟩,
  ⟨"Quantity", .spinner, "1-100", 0, 1⟩,
  ⟨"Category", .comboBox, "", 0, 2⟩,
  ⟨"Status", .comboBox, "", 0, 3⟩,
  ⟨"Last Name", .textField, "", 1, 0⟩,
  ⟨"Price", .spinner, "$1-$1000", 1, 1⟩,
  ⟨"Priority", .choiceBox, "", 1, 2⟩,
  ⟨"Notes", .textField, "", 1, 3⟩,
  ⟨"Full Name", .textField, "", 2, 0⟩,
  ⟨"Total", .textField, "", 2, 1⟩,
  ⟨"Cat Mirror", .textField, "", 2, 2⟩,
  ⟨"Status Mirror", .textField, "", 2, 3⟩]

/-- The five buttons of the four-column screen, in declared order. -/
def fourColButtons : List Button :=
  [⟨"Update Full Name"⟩, ⟨"Calculate Total"⟩, ⟨"Sync Category"⟩,
    ⟨"Sync Status"⟩, ⟨"Update All"⟩]

/-- Geometry of the four-column screen: 4 columns, 3 rows, 20px/15px gaps,
30px padding, 1600x700 window. -/
def fourColLayout : Layout := ⟨4, 3, 20, 15, 30, 1600, 700⟩

/-- The four-column example screen as a LayoutModel. -/
def fourColModel : LayoutModel := ⟨fourColLayout, fourColItems, fourColButtons⟩

/-- The left column of the two-column screen, embedded verbatim from
`visualize_two_columns.py`: (sequence, label, control, prompt). -/
def left_column : List (String × String × String × String) := [
  ("1", "First Name", "TextField", "Enter first name"),
  ("2", "Last Name", "TextField", "Enter last name"),
  ("3", "Email", "TextField", "Enter email address"),
  ("4", "Phone", "TextField", "Enter phone number"),
  ("5", "Age", "Spinner", "18-100")]

/-- The right column of the two-column screen, embedded verbatim from
`visualize_two_columns.py`. -/
def right_column : List (String × String × String × String) := [
  ("6", "Address", "TextField", "Enter address"),
  ("7", "City", "TextField", "Enter city"),
  ("8", "State", "ComboBox", "Select state"),
  ("9", "Zip Code", "TextField", "Enter zip code"),
  ("10", "Country", "ChoiceBox", "USA, Canada, ...")]

/-- Control kind named by the strings used in `visualize_two_columns.py`. -/
def kindOfString : String → ControlKind
  | "Spinner" => .spinner
  | "ComboBox" => .comboBox
  | "ChoiceBox" => .choiceBox
  | _ => .textField

/-- Grid items of one column of the two-column screen: the i-th listed field
sits at row i of column `c`. -/
def itemsOfColumn (c : Nat) (fields : List (String × String × String × String)) :
    List Item :=
  fields.enum.map (fun p =>
    ⟨p.2.2.1, kindOfString p.2.2.2.1, p.2.2.2.2, p.1, c⟩)

/-- Geometry of the two-column screen: 2 columns, 5 rows, 20px/15px gaps,
30px padding, 800x600 window. -/
def twoColLayout : Layout := ⟨2, 5, 20, 15, 30, 800, 600⟩

/-- The two-column example screen as a LayoutModel (it has no buttons). -/
def twoColModel : LayoutModel :=
  ⟨twoColLayout, itemsOfColumn 0 left_column ++ itemsOfColumn 1 right_column, []⟩

/-- Modelled from the spec: the `RenderError` taxonomy of §7 — content that
cannot be placed within the configured cell width under the active overflow
policy. -/
inductive RenderError where
  | overflow (content : String) (width : Nat)
  deriving DecidableEq, Repr

/-- Modelled from the spec: the overflow policy of §4.3 — either fail on
over-wide content or truncate it deterministically with an ellipsis marker. -/
inductive OverflowPolicy where
  | strict
  | truncate
  deriving DecidableEq, Repr

/-- Modelled from the spec: render one cell (§4.3) — left-justify and pad the
content to exactly width `w`; content wider than `w` is truncated to `w`
with a trailing ellipsis under the `truncate` policy and is a `RenderError`
otherwise (never silently overflowing the frame). -/
def renderCell (w : Nat) (p : OverflowPolicy) (s : String) :
    Except RenderError String :=
  if s.length ≤ w then .ok (ljust s w)
  else if p = .truncate then
    if 1 ≤ w then .ok (String.mk (s.toList.take (w - 1) ++ ['…']))
    else .error (.overflow s w)
  else .error (.overflow s w)

/-- Modelled from the spec: control-kind hint text (§9, a tagged variant
rather than ad hoc per-field formatting). -/
def hintText : ControlKind → String
  | .textField => "TextField"
  | .spinner => "Spinner"
  | .comboBox => "ComboBox"
  | .choiceBox => "ChoiceBox"

/-- Modelled from the spec: cell content of §4.3 —
`<sequence>. <label> [<control-hint>]` for the item resolved at (r, c), or
the empty string for a cell with no assigned item. -/
def cellAt (m : LayoutModel) (r c : Nat) : String :=
  match (resolve m).find? (fun q =>
      match q.2 with
      | .field it => it.row == r && it.col == c
      | .button _ => false) with
  | some (s, .field it) =>
    toString s ++ ". " ++ it.label ++ " [" ++ hintText it.kind ++ "]"
  | _ => ""

/-- Modelled from the spec: one row band of the diagram (§4.3): every cell of
the row rendered at the configured width between vertical borders. -/
def renderRow (m : LayoutModel) (w : Nat) (p : OverflowPolicy) (r : Nat) :
    Except RenderError String := do
  let cells ← (List.range m.layout.columnCount).mapM
    (fun c => renderCell w p (cellAt m r c))
  pure ("│" ++ String.join cells ++ "│")

/-- Modelled from the spec: the DiagramRenderer of §4.3 — header band with
column labels, one band per grid row, and a trailing band listing the
buttons with their sequence numbers. -/
def renderDiagram (m : LayoutModel) (w : Nat) (p : OverflowPolicy) :
    Except RenderError (List String) := do
  let header := "│" ++ String.join ((List.range m.layout.columnCount).map
    (fun c => ljust ("COLUMN " ++ toString c) w)) ++ "│"
  let rows ← (List.range m.layout.rowCount).mapM (renderRow m w p)
  let btns ← renderCell (w * m.layout.columnCount) p
    ("BUTTONS: " ++ "  ".intercalate ((resolve m).filterMap (fun q =>
      match q.2 with
      | .button b => some (toString q.1 ++ ". " ++ b.label)
      | .field _ => none)))
  pure (header :: rows ++ ["│" ++ btns ++ "│"])

/-- Modelled from the spec: the navigation-order listing of §4.4 —
`Column c: seq → seq → ...` per column followed by a buttons line. -/
def navListing (m : LayoutModel) : List String :=
  ((List.range m.layout.columnCount).map (fun c =>
    "Column " ++ toString c ++ ": " ++
      " → ".intercalate ((resolve m).filterMap (fun q =>
        match q.2 with
        | .field it => if it.col == c then some (toString q.1) else none
        | .button _ => none)))) ++
  ["Buttons: " ++ " → ".intercalate ((resolve m).filterMap (fun q =>
    match q.2 with
    | .button _ => some (toString q.1)
    | .field _ => none))]

/-- Modelled from the spec: the metadata banner of §4.4 (window size, grid
dimensions, gaps, padding). -/
def banner (m : LayoutModel) : List String :=
  ["Window Size: " ++ toString m.layout.windowWidth ++ " x " ++
      toString m.layout.windowHeight ++ " pixels",
    "Layout: GridPane with " ++ toString m.layout.columnCount ++ " columns, " ++
      toString m.layout.rowCount ++ " rows",
    "Horizontal Gap: " ++ toString m.layout.hGap ++ "px, Vertical Gap: " ++
      toString m.layout.vGap ++ "px, Padding: " ++ toString m.layout.padding ++ "px"]

/-- Modelled from the spec: the ReportAssembler of §4.4 — banner, diagram and
navigation listing concatenated into one text block. -/
def assembleReport (m : LayoutModel) (w : Nat) (p : OverflowPolicy) :
    Except RenderError String := do
  let diag ← renderDiagram m w p
  pure (String.intercalate "\n" (banner m ++ diag ++ navListing m))

/-- Re-running the whole pipeline `n` times on the same model (§5): the list
of the `n` outputs. -/
def pipelineRuns (m : LayoutModel) (w : Nat) (p : OverflowPolicy) (n : Nat) :
    List (Except RenderError String) :=
  (List.range n).map (fun _ => assembleReport m w p)

/-- The twelve diagram cells of the four-column screen, embedded verbatim
from the row-band prints of `visualize_four_columns.py`, row by row. -/
def diagramCells : List (List String) := [
  ["1. First Name", "4. Quantity [▲▼]", "7. Category [▼]", "10. Status [▼]"],
  ["2. Last Name", "5. Price ($) [▲▼]", "8. Priority [▼]", "11. Notes"],
  ["3. Full Name", "6. Total ($)", "9. Category Mirror", "12. Status Mirror"]]

/-- The `LAYOUT CALCULATIONS` item lines of `visualize_four_columns.py`,
embedded verbatim. -/
def calcLines : List String := [
  "  Item 1 (First Name):    layoutPos=\"0,0\", sequence=1",
  "  Item 2 (Last Name):     layoutPos=\"1,0\", sequence=2",
  "  Item 3 (Full Name):     layoutPos=\"2,0\", sequence=3",
  "  Item 4 (Quantity):      layoutPos=\"0,1\", sequence=4",
  "  Item 5 (Price):         layoutPos=\"1,1\", sequence=5",
  "  Item 6 (Total):         layoutPos=\"2,1\", sequence=6",
  "  Item 7 (Category):      layoutPos=\"0,2\", sequence=7",
  "  Item 8 (Priority):      layoutPos=\"1,2\", sequence=8",
  "  Item 9 (Cat Mirror):    layoutPos=\"2,2\", sequence=9",
  "  Item 10 (Status):       layoutPos=\"0,3\", sequence=10",
  "  Item 11 (Notes):        layoutPos=\"1,3\", sequence=11",
  "  Item 12 (Status Mirror):layoutPos=\"2,3\", sequence=12"]

/-- The per-column `NAVIGATION ORDER` lines of `visualize_four_columns.py`,
embedded verbatim. -/
def navOrderLines : List String := [
  "Column 0: 1 → 2 → 3",
  "Column 1: 4 → 5 → 6",
  "Column 2: 7 → 8 → 9",
  "Column 3: 10 → 11 → 12"]

/-- The four numbers printed on a `LAYOUT CALCULATIONS` line: item number,
row, column, sequence. -/
def calcOf (s : String) : Option (Nat × Nat × Nat × Nat) :=
  match digitRuns s with
  | [n, r, c, q] => some (n, r, c, q)
  | _ => none

/-- Sequence number the `LAYOUT CALCULATIONS` section assigns to layout
position (r, c), if listed. -/
def calcSeqAt (r c : Nat) : Option Nat :=
  ((calcLines.filterMap calcOf).find? (fun e => e.2.1 == r && e.2.2.1 == c)).map
    (fun e => e.2.2.2)

/-- The navigation-order listing parsed per column: column index and its
sequence numbers in listed order. -/
def navColumns : List (Nat × List Nat) :=
  navOrderLines.filterMap (fun s =>
    match digitRuns s with
    | c :: qs => some (c, qs)
    | [] => none)

/-- The r-th sequence number in the navigation-order listing of column c. -/
def navSeqAt (c r : Nat) : Option Nat :=
  (navColumns.find? (fun q => q.1 == c)).bind (fun q => q.2[r]?)

/-- Sequence number shown before the label in the diagram cell at (r, c). -/
def cellSeqAt (r c : Nat) : Option Nat :=
  ((diagramCells[r]?).bind (fun row => row[c]?)).bind leadingNat

/-- A single-quote character as a string (the prompt delimiter used by
`visualize_two_columns.py`). -/
def tick : String := String.singleton (Char.ofNat 39)

/-- Left or right half of a field row of the two-column frame, embedded from
`draw_screen`: the border, sequence, label (width 12) and control (width 10),
padded to 37 characters. -/
def fieldHalf (t : String × String × String × String) : String :=
  ljust ("┃ " ++ t.1 ++ ". " ++ ljust t.2.1 12 ++ " [" ++ ljust t.2.2.1 10 ++ "]") 37

/-- Left or right half of a prompt row of the two-column frame, embedded from
`draw_screen`: the border and quoted prompt text, padded to 37 characters. -/
def promptHalf (t : String × String × String × String) : String :=
  ljust ("┃   " ++ tick ++ t.2.2.2 ++ tick) 37

/-- The lines `draw_screen` prints for grid row `i`: field row, prompt row,
and (except after the last row) a spacer line. -/
def twoColRowBand (i : Nat) : List String :=
  match left_column[i]?, right_column[i]? with
  | some l, some r =>
    [fieldHalf l ++ fieldHalf r ++ "┃",
      promptHalf l ++ promptHalf r ++ "┃"] ++
      (if i < 4 then ["┃" ++ repChar ' ' 35 ++ "┃" ++ repChar ' ' 35 ++ "┃"] else [])
  | _, _ => []

/-- The frame lines printed by `visualize_four_columns.py` (source lines
18-52), embedded verbatim from the `print` expressions. -/
def fourColFrame : List String := [
  "┌" ++ repChar '─' 98 ++ "┐",
  "│  Four Column Layout Test - Item Listeners" ++ repChar ' ' 53 ++ "[ _ □ X ] │",
  "├" ++ repChar '─' 98 ++ "┤",
  "│" ++ repChar ' ' 98 ++ "│",
  "│  " ++ ljust "COLUMN 0" 23 ++ ljust "COLUMN 1" 23 ++ ljust "COLUMN 2" 23 ++
    ljust "COLUMN 3" 23 ++ "  │",
  "│  " ++ repChar '─' 23 ++ repChar '─' 23 ++ repChar '─' 23 ++ repChar '─' 23 ++ "  │",
  "│  " ++ ljust "1. First Name" 23 ++ ljust "4. Quantity [▲▼]" 23 ++
    ljust "7. Category [▼]" 23 ++ ljust "10. Status [▼]" 23 ++ "  │",
  "│  " ++ ljust "2. Last Name" 23 ++ ljust "5. Price ($) [▲▼]" 23 ++
    ljust "8. Priority [▼]" 23 ++ ljust "11. Notes" 23 ++ "  │",
  "│  " ++ ljust "3. Full Name" 23 ++ ljust "6. Total ($)" 23 ++
    ljust "9. Category Mirror" 23 ++ ljust "12. Status Mirror" 23 ++ "  │",
  "│" ++ repChar ' ' 98 ++ "│",
  "│  " ++ repChar '─' 94 ++ "  │",
  "│  " ++ ljust "BUTTONS:" 98 ++ "│",
  "│  " ++ ljust "13. Update Full Name  14. Calculate Total  15. Sync Category  16. Sync Status  17. Update All" 98 ++ "│",
  "│" ++ repChar ' ' 98 ++ "│",
  "└" ++ repChar '─' 98 ++ "┘"]

/-- The frame lines printed by `draw_screen` in `visualize_two_columns.py`
(source lines 36-62), embedded verbatim: three header lines, five row bands
and the bottom border. -/
def twoColFrame : List String :=
  ["┏" ++ repChar '━' 35 ++ "┳" ++ repChar '━' 35 ++ "┓",
    "┃     LEFT COLUMN (Column 0)        ┃     RIGHT COLUMN (Column 1)       ┃",
    "┣" ++ repChar '━' 35 ++ "╋" ++ repChar '━' 35 ++ "┫"] ++
  ((List.range 5).map twoColRowBand).flatten ++
  ["┗" ++ repChar '━' 35 ++ "┻" ++ repChar '━' 35 ++ "┛"]

theorem length_repChar (c : Char) (n : Nat) : (repChar c n).length = n := by
  simp [repChar, String.length, List.length_replicate]

theorem length_ljust (s : String) (w : Nat) (h : s.length ≤ w) :
    (ljust s w).length = w := by
  rw [ljust, String.length_append, length_repChar]
  omega

theorem length_withSeq (n : Nat) (l : List Control) :
    (withSeq n l).length = l.length := by
  induction l generalizing n with
  | nil => rfl
  | cons c cs ih => simp [withSeq, ih]

theorem mem_withSeq {n s : Nat} {c : Control} {l : List Control} :
    (s, c) ∈ withSeq n l ↔
      ∃ i, ∃ h : i < l.length, s = n + i ∧ l.get ⟨i, h⟩ = c := by
  induction l generalizing n with
  | nil => simp [withSeq]
  | cons x xs ih =>
    simp only [withSeq, List.mem_cons, ih]
    constructor
    · rintro (hpair | ⟨i, hi, hs, hget⟩)
      · obtain ⟨hs, hc⟩ := Prod.mk.injEq .. ▸ hpair
        exact ⟨0, by simp, by omega, by simpa using hc.symm ▸ rfl⟩
      · exact ⟨i + 1, by simpa using hi, by omega, by simpa using hget⟩
    · rintro ⟨i, hi, hs, hget⟩
      cases i with
      | zero => exact Or.inl (by simp at hget; simp [hs, hget])
      | succ j =>
        refine Or.inr ⟨j, by simpa using hi, by omega, by simpa using hget⟩

theorem map_fst_withSeq (n : Nat) (l : List Control) :
    (withSeq n l).map Prod.fst = List.range' n l.length := by
  induction l generalizing n with
  | nil => rfl
  | cons c cs ih => simp [withSeq, List.range'_succ, ih]

theorem map_snd_withSeq (n : Nat) (l : List Control) :
    (withSeq n l).map Prod.snd = l := by
  induction l generalizing n with
  | nil => rfl
  | cons c cs ih => simp [withSeq, ih]

theorem sortItems_sorted (items : List Item) :
    List.Sorted colRowLe (sortItems items) :=
  List.sorted_insertionSort colRowLe items

theorem index_lt_of_colRowLt {items : List Item} {i j : Nat}
    (hi : i < (sortItems items).length) (hj : j < (sortItems items).length)
    (h : colRowLt ((sortItems items).get ⟨i, hi⟩) ((sortItems items).get ⟨j, hj⟩)) :
    i < j := by
  by_contra hle
  push_neg at hle
  rcases Nat.lt_or_eq_of_le hle with hlt | heq
  · have hrel := (sortItems_sorted items).rel_get_of_lt
      (a := ⟨j, hj⟩) (b := ⟨i, hi⟩) (Fin.mk_lt_mk.mpr hlt)
    unfold colRowLe at hrel
    unfold colRowLt at h
    omega
  · subst heq
    unfold colRowLt at h
    omega

theorem resolve_field_mem {m : LayoutModel} {s : Nat} {a : Item}
    (h : (s, Control.field a) ∈ resolve m) :
    ∃ i, ∃ hi : i < (sortItems m.items).length,
      s = 1 + i ∧ (sortItems m.items).get ⟨i, hi⟩ = a := by
  obtain ⟨i, hi, hs, hget⟩ := mem_withSeq.mp h
  by_cases hlt : i < (sortItems m.items).length
  · refine ⟨i, hlt, hs, ?_⟩
    have hrw : (orderedControls m).get ⟨i, hi⟩ =
        Control.field ((sortItems m.items).get ⟨i, hlt⟩) := by
      simp only [orderedControls, List.get_eq_getElem]
      rw [List.getElem_append_left (by simpa using hlt)]
      simp [List.getElem_map]
    rw [hrw] at hget
    exact Control.field.inj hget
  · exfalso
    push_neg at hlt
    have hlen : ((sortItems m.items).map Control.field).length ≤ i := by
      simpa using hlt
    have hrw : (orderedControls m).get ⟨i, hi⟩ =
        Control.button
          (m.buttons.get
            ⟨i - (sortItems m.items).length, by
              have := hi
              simp only [orderedControls, List.length_append, List.length_map] at this
              omega⟩) := by
      simp only [orderedControls, List.get_eq_getElem]
      rw [List.getElem_append_right hlen]
      simp [List.getElem_map]
    rw [hrw] at hget
    simp at hget

theorem resolve_button_mem {m : LayoutModel} {s : Nat} {b : Button}
    (h : (s, Control.button b) ∈ resolve m) :
    ∃ j, ∃ hj : j < m.buttons.length,
      s = 1 + (sortItems m.items).length + j ∧ m.buttons.get ⟨j, hj⟩ = b := by
  obtain ⟨i, hi, hs, hget⟩ := mem_withSeq.mp h
  have hlenc : (orderedControls m).length =
      (sortItems m.items).length + m.buttons.length := by
    simp [orderedControls]
  by_cases hlt : i < (sortItems m.items).length
  · exfalso
    have hrw : (orderedControls m).get ⟨i, hi⟩ =
        Control.field ((sortItems m.items).get ⟨i, hlt⟩) := by
      simp only [orderedControls, List.get_eq_getElem]
      rw [List.getElem_append_left (by simpa using hlt)]
      simp [List.getElem_map]
    rw [hrw] at hget
    simp at hget
  · push_neg at hlt
    refine ⟨i - (sortItems m.items).length, by omega, by omega, ?_⟩
    have hlen : ((sortItems m.items).map Control.field).length ≤ i := by
      simpa using hlt
    have hrw : (orderedControls m).get ⟨i, hi⟩ =
        Control.button (m.buttons.get ⟨i - (sortItems m.items).length, by omega⟩) := by
      simp only [orderedControls, List.get_eq_getElem]
      rw [List.getElem_append_right hlen]
      simp [List.getElem_map]
    rw [hrw] at hget
    exact Control.button.inj hget

theorem resolve_mem_button (m : LayoutModel) {j : Nat} (hj : j < m.buttons.length) :
    (m.items.length + j + 1, Control.button (m.buttons.get ⟨j, hj⟩)) ∈ resolve m := by
  have hsortlen : (sortItems m.items).length = m.items.length := by
    simp [sortItems, List.length_insertionSort]
  apply mem_withSeq.mpr
  refine ⟨(sortItems m.items).length + j, ?_, by omega, ?_⟩
  · simp only [orderedControls, List.length_append, List.length_map]
    omega
  · simp only [orderedControls, List.get_eq_getElem]
    rw [List.getElem_append_right (by simp)]
    simp [List.getElem_map]

/-- C1: in every valid LayoutModel, for any two grid items A and B, if
A.column < B.column then A's assigned sequence number is strictly smaller
than B's; and if the columns are equal and A.row < B.row then A's sequence
number is again strictly smaller. -/
theorem resolver_column_major (m : LayoutModel) (hm : Valid m)
    {sa sb : Nat} {a b : Item}
    (ha : (sa, Control.field a) ∈ resolve m)
    (hb : (sb, Control.field b) ∈ resolve m) :
    (a.col < b.col → sa < sb) ∧ (a.col = b.col → a.row < b.row → sa < sb) := by
  obtain ⟨i, hi, hsa, hga⟩ := resolve_field_mem ha
  obtain ⟨j, hj, hsb, hgb⟩ := resolve_field_mem hb
  constructor
  · intro hcol
    have hij : i < j :=
      index_lt_of_colRowLt hi hj (by rw [hga, hgb]; exact Or.inl hcol)
    omega
  · intro hceq hrow
    have hij : i < j :=
      index_lt_of_colRowLt hi hj (by rw [hga, hgb]; exact Or.inr ⟨hceq, hrow⟩)
    omega

theorem resolver_column_major_witness :
    Valid demoModel ∧
    ((itemA.col < itemB.col → 1 < 2) ∧
      (itemA.col = itemB.col → itemA.row < itemB.row → 1 < 2)) :=
  ⟨by decide,
    resolver_column_major demoModel (by decide) (by decide) (by decide)⟩

/-- C2: for every valid LayoutModel with N = item count + button count, the
resolver assigns exactly the sequence numbers 1..N in order (hence a
permutation of 1..N with no duplicates and no gaps) and its entries cover
every grid item and button exactly once. -/
theorem resolver_permutation (m : LayoutModel) (hm : Valid m) :
    (resolve m).map Prod.fst =
      List.range' 1 (m.items.length + m.buttons.length) ∧
    ((resolve m).map Prod.snd).Perm
      (m.items.map Control.field ++ m.buttons.map Control.button) := by
  constructor
  · rw [resolve, map_fst_withSeq]
    congr 1
    simp [orderedControls, sortItems, List.length_insertionSort]
  · rw [resolve, map_snd_withSeq, orderedControls]
    exact ((List.perm_insertionSort colRowLe m.items).map Control.field).append_right _

theorem resolver_permutation_witness :
    Valid demoModel ∧
    ((resolve demoModel).map Prod.fst =
        List.range' 1 (demoModel.items.length + demoModel.buttons.length) ∧
      ((resolve demoModel).map Prod.snd).Perm
        (demoModel.items.map Control.field ++
          demoModel.buttons.map Control.button)) :=
  ⟨by decide, resolver_permutation demoModel (by decide)⟩

/-- C3: in every valid LayoutModel, every button's sequence number is
strictly greater than every grid item's, and the j-th declared button
receives sequence number (item count) + j + 1, i.e. the buttons keep their
declared insertion order. -/
theorem resolver_buttons_last (m : LayoutModel) (hm : Valid m) :
    (∀ sa a, (sa, Control.field a) ∈ resolve m →
      ∀ sb b, (sb, Control.button b) ∈ resolve m → sa < sb) ∧
    (∀ j, (hj : j < m.buttons.length) →
      (m.items.length + j + 1, Control.button (m.buttons.get ⟨j, hj⟩)) ∈ resolve m) := by
  constructor
  · intro sa a ha sb b hb
    obtain ⟨i, hi, hsa, -⟩ := resolve_field_mem ha
    obtain ⟨j, hj, hsb, -⟩ := resolve_button_mem hb
    omega
  · intro j hj
    exact resolve_mem_button m hj

theorem resolver_buttons_last_witness :
    Valid demoModel ∧
    ((∀ sa a, (sa, Control.field a) ∈ resolve demoModel →
        ∀ sb b, (sb, Control.button b) ∈ resolve demoModel → sa < sb) ∧
      (∀ j, (hj : j < demoModel.buttons.length) →
        (demoModel.items.length + j + 1,
            Control.button (demoModel.buttons.get ⟨j, hj⟩)) ∈ resolve demoModel)) :=
  ⟨by decide, resolver_buttons_last demoModel (by decide)⟩

theorem findCollision_eq_none_iff (items : List Item) :
    findCollision items = none ↔
      items.Pairwise (fun a b => collidesWith a b = false) := by
  induction items with
  | nil => simp [findCollision]
  | cons it rest ih =>
    simp only [findCollision]
    constructor
    · intro h
      cases hf : rest.find? (collidesWith it) with
      | some other => rw [hf] at h; simp at h
      | none =>
        rw [hf] at h
        simp only at h
        refine List.Pairwise.cons ?_ (ih.mp h)
        intro b hb
        simpa using List.find?_eq_none.mp hf b hb
    · intro h
      obtain ⟨hhead, htail⟩ := List.pairwise_cons.mp h
      have hf : rest.find? (collidesWith it) = none :=
        List.find?_eq_none.mpr (fun x hx => by simp [hhead x hx])
      rw [hf]
      exact ih.mpr htail

/-- C8: layout construction rejects a model whenever some grid item lies
outside the declared grid bounds or two grid items collide on the same
(row, column): `mkLayoutModel` returns an `InvalidLayoutError`. -/
theorem mk_invalid (ly : Layout) (items : List Item) (btns : List Button)
    (h : (∃ it ∈ items, inBounds ly it = false) ∨
      ¬ items.Pairwise (fun a b => collidesWith a b = false)) :
    ∃ e, mkLayoutModel ly items btns = .error e := by
  rcases h with hoob | hcol
  · have hsome : (items.find? (fun it => !inBounds ly it)).isSome = true := by
      apply List.find?_isSome.mpr
      obtain ⟨it, hmem, hfalse⟩ := hoob
      exact ⟨it, hmem, by simp [hfalse]⟩
    cases hf : items.find? (fun it => !inBounds ly it) with
    | none => rw [hf] at hsome; simp at hsome
    | some it => exact ⟨.outOfBounds it, by simp [mkLayoutModel, hf]⟩
  · cases hf : items.find? (fun it => !inBounds ly it) with
    | some it => exact ⟨.outOfBounds it, by simp [mkLayoutModel, hf]⟩
    | none =>
      cases hc : findCollision items with
      | none => exact absurd ((findCollision_eq_none_iff items).mp hc) hcol
      | some pair =>
        exact ⟨.collision pair.1 pair.2, by simp [mkLayoutModel, hf, hc]⟩

theorem mk_invalid_witness :
    ((∃ it ∈ clashItems, inBounds ⟨2, 1, 0, 0, 0, 0, 0⟩ it = false) ∨
      ¬ clashItems.Pairwise (fun a b => collidesWith a b = false)) ∧
    ∃ e, mkLayoutModel ⟨2, 1, 0, 0, 0, 0, 0⟩ clashItems [] = .error e :=
  ⟨by decide, mk_invalid ⟨2, 1, 0, 0, 0, 0, 0⟩ clashItems [] (by decide)⟩

/-- C5: the four-column example (12 fields, 5 buttons) resolves column by
column to sequence numbers 1..12 — column 0 rows 0..2 to 1,2,3, column 1 to
4,5,6, column 2 to 7,8,9, column 3 to 10,11,12 — and the five buttons to
13..17 in their declared order. -/
theorem fourCol_resolution :
    fourColItems.length = 12 ∧ fourColButtons.length = 5 ∧
    Valid fourColModel ∧
    resolve fourColModel = [
      (1, .field ⟨"First Name", .textField, "", 0, 0⟩),
      (2, .field ⟨"Last Name", .textField, "", 1, 0⟩),
      (3, .field ⟨"Full Name", .textField, "", 2, 0⟩),
      (4, .field ⟨"Quantity", .spinner, "1-100", 0, 1⟩),
      (5, .field ⟨"Price", .spinner, "$1-$1000", 1, 1⟩),
      (6, .field ⟨"Total", .textField, "", 2, 1⟩),
      (7, .field ⟨"Category", .comboBox, "", 0, 2⟩),
      (8, .field ⟨"Priority", .choiceBox, "", 1, 2⟩),
      (9, .field ⟨"Cat Mirror", .textField, "", 2, 2⟩),
      (10, .field ⟨"Status", .comboBox, "", 0, 3⟩),
      (11, .field ⟨"Notes", .textField, "", 1, 3⟩),
      (12, .field ⟨"Status Mirror", .textField, "", 2, 3⟩),
      (13, .button ⟨"Update Full Name"⟩),
      (14, .button ⟨"Calculate Total"⟩),
      (15, .button ⟨"Sync Category"⟩),
      (16, .button ⟨"Sync Status"⟩),
      (17, .button ⟨"Update All"⟩)] := by
  refine ⟨rfl, rfl, by decide, by decide⟩

/-- C6: in the two-column example (10 fields, no buttons) the items of
column 0 at rows 0..4 resolve to sequence numbers 1..5 and the items of
column 1 at rows 0..4 resolve to 6..10 — matching the sequence labels the
script itself carries in its field tuples. -/
theorem twoCol_resolution :
    Valid twoColModel ∧
    resolve twoColModel = [
      (1, .field ⟨"First Name", .textField, "Enter first name", 0, 0⟩),
      (2, .field ⟨"Last Name", .textField, "Enter last name", 1, 0⟩),
      (3, .field ⟨"Email", .textField, "Enter email address", 2, 0⟩),
      (4, .field ⟨"Phone", .textField, "Enter phone number", 3, 0⟩),
      (5, .field ⟨"Age", .spinner, "18-100", 4, 0⟩),
      (6, .field ⟨"Address", .textField, "Enter address", 0, 1⟩),
      (7, .field ⟨"City", .textField, "Enter city", 1, 1⟩),
      (8, .field ⟨"State", .comboBox, "Select state", 2, 1⟩),
      (9, .field ⟨"Zip Code", .textField, "Enter zip code", 3, 1⟩),
      (10, .field ⟨"Country", .choiceBox, "USA, Canada, ...", 4, 1⟩)] ∧
    (resolve twoColModel).map (fun p => some p.1) =
      (left_column ++ right_column).map (fun t => leadingNat t.1) := by
  refine ⟨by decide, by decide, by decide⟩

theorem length_truncated (w : Nat) (s : String) (h1 : 1 ≤ w) (h2 : w < s.length) :
    (String.mk (s.toList.take (w - 1) ++ ['…'])).length = w := by
  show (s.toList.take (w - 1) ++ ['…']).length = w
  have hlen : s.toList.length = s.length := rfl
  rw [List.length_append, List.length_take]
  simp only [List.length_cons, List.length_nil]
  omega

theorem renderCell_ok_length {w : Nat} {p : OverflowPolicy} {s out : String}
    (h : renderCell w p s = .ok out) : out.length = w := by
  unfold renderCell at h
  split_ifs at h with h1 h2 h3
  · injection h with h
    rw [← h]
    exact length_ljust s w h1
  · injection h with h
    rw [← h]
    exact length_truncated w s h3 (by omega)

/-- C7: rendering a label wider than the configured cell width under the
`truncate` policy yields a cell of exactly the configured width ending in
the ellipsis marker; every successfully rendered cell has exactly the
configured width (no line can outgrow its siblings); and content that
cannot be placed under the `strict` policy fails with a `RenderError`. -/
theorem renderCell_truncation (w : Nat) (p : OverflowPolicy) (s : String)
    (hw : 1 ≤ w) :
    (w < s.length →
      renderCell w .truncate s = .ok (String.mk (s.toList.take (w - 1) ++ ['…'])) ∧
      (String.mk (s.toList.take (w - 1) ++ ['…'])).length = w ∧
      (String.mk (s.toList.take (w - 1) ++ ['…'])).toList.getLast? = some '…') ∧
    (∀ out, renderCell w p s = .ok out → out.length = w) ∧
    (w < s.length → ∃ e, renderCell w .strict s = .error e) := by
  refine ⟨fun hlong => ⟨?_, length_truncated w s hw hlong, ?_⟩,
    fun out h => renderCell_ok_length h, fun hlong => ⟨.overflow s w, ?_⟩⟩
  · unfold renderCell
    rw [if_neg (by omega), if_pos rfl, if_pos hw]
  · show (s.toList.take (w - 1) ++ ['…']).getLast? = some '…'
    exact List.getLast?_concat _
  · unfold renderCell
    rw [if_neg (by omega), if_neg (by decide)]

theorem renderCell_truncation_witness :
    1 ≤ 5 ∧
    ((5 < "Hello World".length →
        renderCell 5 .truncate "Hello World" =
          .ok (String.mk ("Hello World".toList.take (5 - 1) ++ ['…'])) ∧
        (String.mk ("Hello World".toList.take (5 - 1) ++ ['…'])).length = 5 ∧
        (String.mk ("Hello World".toList.take (5 - 1) ++ ['…'])).toList.getLast? =
          some '…') ∧
      (∀ out, renderCell 5 .truncate "Hello World" = .ok out → out.length = 5) ∧
      (5 < "Hello World".length →
        ∃ e, renderCell 5 .strict "Hello World" = .error e)) :=
  ⟨by decide, renderCell_truncation 5 .truncate "Hello World" (by decide)⟩

/-- C9: resolving and rendering are pure functions of the LayoutModel — in
any number `n` of re-runs of the whole pipeline on the same model, any two
runs produce identical output. -/
theorem pipeline_deterministic (m : LayoutModel) (w : Nat) (p : OverflowPolicy)
    (n i j : Nat) (hi : i < n) (hj : j < n) :
    (pipelineRuns m w p n).get ⟨i, by simpa [pipelineRuns] using hi⟩ =
      (pipelineRuns m w p n).get ⟨j, by simpa [pipelineRuns] using hj⟩ := by
  simp [pipelineRuns]

theorem pipeline_deterministic_witness :
    0 < 2 ∧ 1 < 2 ∧
    (pipelineRuns demoModel 20 .truncate 2).get ⟨0, by simp [pipelineRuns]⟩ =
      (pipelineRuns demoModel 20 .truncate 2).get ⟨1, by simp [pipelineRuns]⟩ :=
  ⟨by decide, by decide,
    pipeline_deterministic demoModel 20 .truncate 2 0 1 (by decide) (by decide)⟩

/-- C10: in the four-column report the three representations of the
navigation order agree: for every grid position (r, c) of the 3x4 grid, the
sequence number shown before the label in the diagram cell is present and
equals both the sequence the `LAYOUT CALCULATIONS` section lists for
`layoutPos="r,c"` and the r-th entry of column c in the per-column
navigation-order listing. -/
theorem fourCol_report_consistent :
    ∀ r : Fin 3, ∀ c : Fin 4,
      (cellSeqAt r.val c.val).isSome = true ∧
      cellSeqAt r.val c.val = calcSeqAt r.val c.val ∧
      cellSeqAt r.val c.val = navSeqAt c.val r.val := by
  decide

set_option maxRecDepth 8000 in
/-- C4: the frames the scripts actually print do NOT have lines of equal
width — `visualize_four_columns.py` mixes widths 98, 100, 102 and 107 in
one frame and `draw_screen` in `visualize_two_columns.py` mixes 73 and 75 —
so the vertical borders do not all land in the same character column. -/
theorem frame_line_widths :
    fourColFrame.map String.length =
      [100, 107, 100, 100, 98, 98, 98, 98, 98, 100, 100, 102, 102, 100, 100] ∧
    twoColFrame.map String.length =
      [73, 73, 73, 75, 75, 73, 75, 75, 73, 75, 75, 73, 75, 75, 73, 75, 75, 73] ∧
    ¬ (∀ l1 ∈ fourColFrame, ∀ l2 ∈ fourColFrame, l1.length = l2.length) ∧
    ¬ (∀ l1 ∈ twoColFrame, ∀ l2 ∈ twoColFrame, l1.length = l2.length) := by
  refine ⟨by decide, by decide, by decide, by decide⟩

end LayoutViz
